import Mathlib

/-!
Verification of the psqlgraph driver (PostgreSQL property-graph layer).

Shallow embedding of the Python sources:
  psqlgraph/util.py      (sanitize, retryable)
  psqlgraph/psqlgraph.py (PsqlGraphDriver: session_scope, nodes/edges,
                          node_merge/insert/update/clobber, lookups)
  psqlgraph/query.py     (GraphQuery filter and traversal builder)
  psqlgraph/edge.py      (Edge.label hybrid property)

Python exceptions become an explicit error type; fallible Python code
returns `Except`; SQLAlchemy session effects (commit, rollback,
expunge_all, close) become explicit event traces; the per-context
session stack (the `xlocal` context) becomes an explicit stack of
session identifiers.
-/

namespace PsqlGraph

/-- Python exception classes raised or caught by the embedded code.
`integrityError` is SQLAlchemy's `IntegrityError`; `valueError` is the
builtin `ValueError`; `validationError` is `exc.ValidationError`, the
distinct library exception class of the error taxonomy (imported but
never raised by `util.sanitize`); `attributeError` is the builtin
`AttributeError` (raised on access to an undefined attribute);
`runtimeError` is the builtin `RuntimeError`. The payload is the
exception message. -/
inductive PyErr where
  | integrityError (msg : String)
  | valueError (msg : String)
  | validationError (msg : String)
  | attributeError (msg : String)
  | runtimeError (msg : String)
  | typeError (msg : String)
  | queryError (msg : String)
  deriving DecidableEq, Repr

/-- Class test performed by `except IntegrityError` in util.retryable. -/
def PyErr.isIntegrityError : PyErr → Bool
  | .integrityError _ => true
  | _ => false

/-- Class test for `exc.ValidationError`. -/
def PyErr.isValidationError : PyErr → Bool
  | .validationError _ => true
  | _ => false

/-- Class test for the builtin `AttributeError`. -/
def PyErr.isAttributeError : PyErr → Bool
  | .attributeError _ => true
  | _ => false

/-- Outcome of running a function under the `retryable` wrapper:
the value returned or exception raised, the number of times the wrapped
function was executed, and the number of times the backoff callback was
invoked. -/
structure RetryResult (α : Type) where
  result : Except PyErr α
  execs : Nat
  backoffs : Nat
  deriving Repr

/-- The `while retries <= max_retries` loop of `util.retryable`.
`op i` is the outcome of the i-th execution of the wrapped function
(`i` = the value of `retries` at that execution).  `gas` is
`max_retries - retries`, so the code's exhaustion test
`retries >= max_retries` is `gas = 0`.  A non-IntegrityError exception
is not caught by the `except IntegrityError` clause and propagates at
once; an IntegrityError with retries remaining increments `retries`,
invokes `backoff`, and re-runs the function; with no retries remaining
the bare `raise` re-raises the same exception. -/
def retryLoop (op : Nat → Except PyErr α) : Nat → Nat → RetryResult α
  | gas, r =>
    match op r with
    | .ok a => ⟨.ok a, 1, 0⟩
    | .error e =>
      if e.isIntegrityError then
        match gas with
        | 0 => ⟨.error e, 1, 0⟩
        | g + 1 =>
          let rest := retryLoop op g (r + 1)
          ⟨rest.result, rest.execs + 1, rest.backoffs + 1⟩
      else ⟨.error e, 1, 0⟩

/-- `DEFAULT_RETRIES = 0` in util.py and psqlgraph.py. -/
def DEFAULT_RETRIES : Nat := 0

/-- Running a `@retryable`-wrapped function with keyword argument
`max_retries` (default `DEFAULT_RETRIES`): the loop starts at
`retries = 0`. -/
def retryableRun (op : Nat → Except PyErr α) (maxRetries : Nat) : RetryResult α :=
  retryLoop op maxRetries 0

/-- Lifecycle calls a session scope can make on a SQLAlchemy session:
`local.commit()`, `local.rollback()`, `local.expunge_all()`,
`local.close()`. -/
inductive SEvent where
  | commit
  | rollback
  | expungeAll
  | close
  deriving DecidableEq, Repr

/-- Driver context state: `stack` is the per-execution-context stack of
active sessions maintained by `with self.context(session=local)` (the
`xlocal` object), sessions named by identifiers; `fresh` is the
identifier `_new_session` would hand out next. -/
structure DriverState where
  stack : List Nat
  fresh : Nat
  deriving DecidableEq, Repr

/-- `has_session`: the context has a `session` attribute iff the scope
stack is non-empty. -/
def has_session (st : DriverState) : Bool :=
  !st.stack.isEmpty

/-- `current_session`: the innermost active session. -/
def current_session (st : DriverState) : Nat :=
  st.stack.headD 0

/-- `PsqlGraphDriver.session_scope` (psqlgraph.py lines 118-151).

`sessionArg` is the explicit `session` argument (`none` = Python
`None`); `body loc` is the outcome of the code executed under
`yield local` given the chosen session `loc`; `commitResult` is the
outcome of `local.commit()` if it is reached.  Returns the overall
outcome together with the list of lifecycle calls made, each tagged
with the session it was made on.

Control flow of the source: a `must_inherit` scope with no active
session raises RuntimeError before any session is chosen; an explicit
session is used verbatim and counts as inherited; otherwise the
current session is inherited when `can_inherit` holds and one is
active, else a brand-new session is created (`inherited_session =
False`).  The `try` block runs the body and then, for a non-inherited
session only, `local.commit()`; any exception from either triggers
`local.rollback()` and re-raises; the `finally` block runs
`local.expunge_all(); local.close()` for a non-inherited session. -/
def session_scope (st : DriverState) (sessionArg : Option Nat)
    (canInherit mustInherit : Bool)
    (body : Nat → Except PyErr α) (commitResult : Except PyErr Unit) :
    Except PyErr α × List (Nat × SEvent) :=
  if mustInherit && !has_session st then
    (.error (.runtimeError
      "Session scope requires it to be wrapped in a pre-existing session"),
     [])
  else
    let chosen : Nat × Bool :=
      match sessionArg with
      | some s => (s, true)
      | none =>
        if !(canInherit && has_session st) then (st.fresh, false)
        else (current_session st, true)
    let loc := chosen.1
    let inherited := chosen.2
    match body loc with
    | .error e =>
      (.error e,
       (loc, .rollback) ::
         (if inherited then [] else [(loc, .expungeAll), (loc, .close)]))
    | .ok a =>
      if inherited then (.ok a, [])
      else
        match commitResult with
        | .ok _ =>
          (.ok a, [(loc, .commit), (loc, .expungeAll), (loc, .close)])
        | .error c =>
          (.error c,
           [(loc, .commit), (loc, .rollback), (loc, .expungeAll),
            (loc, .close)])

/-- Scalar property values storable in the JSONB columns (string,
integer, boolean, null; the data model's scalar types). -/
inductive PVal where
  | vStr (s : String)
  | vInt (n : Int)
  | vBool (b : Bool)
  | vNull
  deriving DecidableEq, Repr

/-- A Python dict of properties or system annotations, as an
association list with the first binding of a key the visible one. -/
abbrev PropDict := List (String × PVal)

/-- Python `d[k]` / `d.get(k)`: the value bound to `k`. -/
def pdGet : PropDict → String → Option PVal
  | [], _ => none
  | (k0, v) :: rest, k => if k0 = k then some v else pdGet rest k

/-- JSONB containment `big @> small` used by
`Node.properties.contains(props)`: every binding of `small` appears in
`big` with the same value. -/
def pdContains (big small : PropDict) : Bool :=
  small.all (fun kv => pdGet big kv.1 == some kv.2)

/-- Python `old.update(upd)` (and the equivalent per-key assignment
loop `for k, v in upd.items(): old[k] = v`): keys of `old` keep their
place with the updated value when `upd` rebinds them, and keys new in
`upd` are added. -/
def dictUpdate (old upd : PropDict) : PropDict :=
  old.map (fun kv =>
    match pdGet upd kv.1 with
    | some v => (kv.1, v)
    | none => kv)
  ++ upd.filter (fun kv => (pdGet old kv.1).isNone)

/-- A stored node row (live table or voided history table). -/
structure NodeRec where
  node_id : String
  label : Option String
  props : PropDict
  sysan : PropDict
  deriving DecidableEq, Repr

/-- A stored edge row (live table or voided history table). -/
structure EdgeRec where
  src_id : String
  dst_id : String
  label : Option String
  props : PropDict
  sysan : PropDict
  deriving DecidableEq, Repr

/-- The database contents a query is evaluated against. -/
structure Store where
  liveNodes : List NodeRec
  voidedNodeRows : List NodeRec
  liveEdges : List EdgeRec
  voidedEdgeRows : List EdgeRec
  deriving DecidableEq, Repr

/-- Node-query filters produced by the GraphQuery methods used by the
driver lookups: `ids` (string form), `props`, `sysan`, and `labels`
(string form). -/
inductive NFilter where
  | idEq (x : String)
  | propsContains (d : PropDict)
  | sysanContains (d : PropDict)
  | labelEq (l : String)
  deriving DecidableEq, Repr

/-- A GraphQuery over the node (or voided-node) entity: the session it
is bound to, which table it selects from, the filters applied, and the
`yield_per` batch size if set. -/
structure NQuery where
  sessionId : Nat
  voided : Bool
  filters : List NFilter
  yieldPer : Option Nat
  deriving DecidableEq, Repr

/-- Whether a node row satisfies one filter. -/
def NFilter.matches (n : NodeRec) : NFilter → Bool
  | .idEq x => n.node_id == x
  | .propsContains d => pdContains n.props d
  | .sysanContains d => pdContains n.sysan d
  | .labelEq l => n.label == some l

/-- The rows a node query returns: the selected table restricted to
the rows satisfying every filter. -/
def evalNQuery (q : NQuery) (store : Store) : List NodeRec :=
  (if q.voided then store.voidedNodeRows else store.liveNodes).filter
    (fun n => q.filters.all (fun f => f.matches n))

/-- `PsqlGraphDriver.nodes` (psqlgraph.py lines 153-159): opens a
`must_inherit` session scope and returns `local.query(Node)`, a fresh
GraphQuery bound to the scope's session. -/
def nodes (st : DriverState) : Except PyErr NQuery :=
  (session_scope st none true true
    (fun s => .ok (NQuery.mk s false [] none)) (.ok ())).1

/-- `PsqlGraphDriver.voided_nodes` (lines 169-174): same over the
voided-node table. -/
def voided_nodes (st : DriverState) : Except PyErr NQuery :=
  (session_scope st none true true
    (fun s => .ok (NQuery.mk s true [] none)) (.ok ())).1

/-- `PsqlGraphDriver.get_nodes` (lines 189-190):
`self.nodes().yield_per(batch_size)`. -/
def get_nodes (st : DriverState) (batch_size : Nat) : Except PyErr NQuery :=
  (nodes st).map (fun q => { q with yieldPer := some batch_size })

/-- Edge-query filters: `src`-style id filters and
`filter(Edge.label == label)`. -/
inductive EFilter where
  | srcEq (x : String)
  | dstEq (x : String)
  | labelEq (l : String)
  deriving DecidableEq, Repr

/-- A GraphQuery over the edge (or voided-edge) entity. -/
structure EQuery where
  sessionId : Nat
  voided : Bool
  filters : List EFilter
  yieldPer : Option Nat
  deriving DecidableEq, Repr

/-- Whether an edge row satisfies one filter. -/
def EFilter.matches (e : EdgeRec) : EFilter → Bool
  | .srcEq x => e.src_id == x
  | .dstEq x => e.dst_id == x
  | .labelEq l => e.label == some l

/-- The rows an edge query returns. -/
def evalEQuery (q : EQuery) (store : Store) : List EdgeRec :=
  (if q.voided then store.voidedEdgeRows else store.liveEdges).filter
    (fun e => q.filters.all (fun f => f.matches e))

/-- `PsqlGraphDriver.edges` (lines 192-198). -/
def edges (st : DriverState) : Except PyErr EQuery :=
  (session_scope st none true true
    (fun s => .ok (EQuery.mk s false [] none)) (.ok ())).1

/-- `PsqlGraphDriver.voided_edges` (lines 176-181). -/
def voided_edges (st : DriverState) : Except PyErr EQuery :=
  (session_scope st none true true
    (fun s => .ok (EQuery.mk s true [] none)) (.ok ())).1

/-- `PsqlGraphDriver.get_edges` (lines 200-201):
`self.edges().yield_per(batch_size)`. -/
def get_edges (st : DriverState) (batch_size : Nat) : Except PyErr EQuery :=
  (edges st).map (fun q => { q with yieldPer := some batch_size })

/-- Attribute access plus call, `query.<name>(arg)`, for a
single-string-argument method on an edge GraphQuery.  query.py defines
`src` (`filter(Edge.src_id == src_id)`) and `ids`; it defines no
`src_ids` and no `dst_ids`, and the SQLAlchemy `Query` base class
(external) defines neither, so accessing those names raises
`AttributeError`. -/
def EQuery.callMethod (q : EQuery) (name : String) (arg : String) :
    Except PyErr EQuery :=
  if name = "src" then
    .ok { q with filters := q.filters ++ [.srcEq arg] }
  else if name = "ids" then
    .ok { q with filters := q.filters ++ [.srcEq arg] }
  else
    .error (.attributeError
      ("GraphQuery object has no attribute " ++ name))

/-- `PsqlGraphDriver.node_lookup` (psqlgraph.py lines 247-261): picks
the live or voided node query, then applies `ids`, `props` and `sysan`
filters for the arguments that are not None.  The `label` argument is
accepted but never used in the body, exactly as in the source. -/
def node_lookup (st : DriverState) (node_id : Option String)
    (property_matches : Option PropDict) (label : Option String)
    (system_annotation_matches : Option PropDict) (voided : Bool) :
    Except PyErr NQuery := do
  let q ← if voided then voided_nodes st else nodes st
  let q := match node_id with
    | some x => { q with filters := q.filters ++ [.idEq x] }
    | none => q
  let q := match property_matches with
    | some d => { q with filters := q.filters ++ [.propsContains d] }
    | none => q
  let q := match system_annotation_matches with
    | some d => { q with filters := q.filters ++ [.sysanContains d] }
    | none => q
  let _unused := label
  pure q

/-- `PsqlGraphDriver.edge_lookup` (psqlgraph.py lines 351-364): picks
the live or voided edge query; for a non-None `src_id` it evaluates
`query.src_ids(src_id)`, for a non-None `dst_id` it evaluates
`query.dst_ids(dst_id)` (both by attribute access on the GraphQuery),
and for a non-None `label` it calls
`query.filter(Edge.label == label)` directly. -/
def edge_lookup (st : DriverState) (src_id dst_id label : Option String)
    (voided : Bool) : Except PyErr EQuery := do
  let q ← if voided then voided_edges st else edges st
  let q ← match src_id with
    | some x => q.callMethod "src_ids" x
    | none => pure q
  let q ← match dst_id with
    | some x => q.callMethod "dst_ids" x
    | none => pure q
  let q := match label with
    | some l => { q with filters := q.filters ++ [.labelEq l] }
    | none => q
  pure q

/-- The query-builder operations `path_out`/`path_in` emit:
`outerjoin('edges_out', 'dst', aliased=True, from_joinpoint=True)`,
its incoming mirror, a `filter(Node.label == label)` at the current
join point, and `reset_joinpoint()`. -/
inductive PathOp where
  | outerjoinOut
  | outerjoinIn
  | filterLabel (l : String)
  | resetJoinpoint
  deriving DecidableEq, Repr

/-- `GraphQuery.path_out` (query.py lines 74-91), the builder state
abstracted as the list of operations applied so far.  The source is a
`for label in labels` loop whose body rebinds `self` to the joined and
filtered query; when `reset` is true the loop body returns
`self.reset_joinpoint()` during the first iteration; when `reset` is
false the loop runs to completion and the function ends without a
`return` statement, so Python returns `None` — hence the `Option`
result. -/
def path_out : List PathOp → List String → Bool → Option (List PathOp)
  | _, [], _ => none
  | q, l :: rest, reset =>
    let q2 := q ++ [.outerjoinOut, .filterLabel l]
    if reset then some (q2 ++ [.resetJoinpoint])
    else path_out q2 rest reset

/-- `GraphQuery.path_in` (query.py lines 93-110), mirror of
`path_out` over `edges_in`/`src`. -/
def path_in : List PathOp → List String → Bool → Option (List PathOp)
  | _, [], _ => none
  | q, l :: rest, reset =>
    let q2 := q ++ [.outerjoinIn, .filterLabel l]
    if reset then some (q2 ++ [.resetJoinpoint])
    else path_in q2 rest reset

/-- A node entity held in memory by the caller. -/
structure NodeEnt where
  node_id : String
  label : Option String
  acl : List String
  props : PropDict
  sysan : PropDict
  deriving DecidableEq, Repr

/-- An edge entity held in memory by the caller. -/
structure EdgeEnt where
  src_id : String
  dst_id : String
  label : Option String
  acl : List String
  props : PropDict
  sysan : PropDict
  deriving DecidableEq, Repr

/-- `PsqlGraphDriver.node_update` (psqlgraph.py lines 232-242), effect
on the entity: each system-annotation key is assigned in a loop, `acl`
is replaced only when not None, and `node.properties.update(properties)`
merges the new properties in. -/
def node_update (node : NodeEnt) (system_annotations : PropDict)
    (acl : Option (List String)) (properties : PropDict) : NodeEnt :=
  { node with
    sysan := dictUpdate node.sysan system_annotations
    acl := match acl with
      | some a => a
      | none => node.acl
    props := dictUpdate node.props properties }

/-- Modelled from the spec: `PolyNode` (node.py, not under src/)
constructs a node entity from id, label, acl, system annotations and
properties. -/
def PolyNode (node_id : String) (label : Option String)
    (acl : Option (List String)) (system_annotations properties : PropDict) :
    NodeEnt :=
  { node_id := node_id
    label := label
    acl := acl.getD []
    props := properties
    sysan := system_annotations }

/-- `PsqlGraphDriver.node_merge` (psqlgraph.py lines 209-226), effect
on the entity: with no `node` argument the node is looked up by id
(`lookedUp` is the result of that query, `None` when absent); an
existing node is passed to `node_update`, otherwise a new `PolyNode`
is constructed. -/
def node_merge (node lookedUp : Option NodeEnt) (node_id : String)
    (label : Option String) (acl : Option (List String))
    (system_annotations properties : PropDict) : NodeEnt :=
  match node with
  | some n => node_update n system_annotations acl properties
  | none =>
    match lookedUp with
    | some n => node_update n system_annotations acl properties
    | none => PolyNode node_id label acl system_annotations properties

/-- `PsqlGraphDriver.edge_update` (psqlgraph.py lines 337-344), effect
on the entity: system-annotation keys assigned in a loop, then
`edge.properties.update(properties)`. -/
def edge_update (edge : EdgeEnt) (system_annotations properties : PropDict) :
    EdgeEnt :=
  { edge with
    sysan := dictUpdate edge.sysan system_annotations
    props := dictUpdate edge.props properties }

/-- `PsqlGraphDriver.node_clobber` (psqlgraph.py lines 278-292), effect
on the entity: acl, system annotations and properties are each fully
replaced when the argument is not None. -/
def node_clobberEntity (node : NodeEnt) (acl : Option (List String))
    (system_annotations properties : Option PropDict) : NodeEnt :=
  { node with
    acl := acl.getD node.acl
    sysan := system_annotations.getD node.sysan
    props := properties.getD node.props }

/-- `PsqlGraphDriver.node_insert` (psqlgraph.py lines 228-230): opens
a plain session scope (no explicit session, default flags) and adds
the node; the row hits the database when the scope commits, so
`commitResult` is that commit's outcome.  The def carries no
`@retryable` decorator, so its body runs exactly once and every
exception propagates directly. -/
def node_insert (st : DriverState) (commitResult : Except PyErr Unit) :
    Except PyErr Unit × List (Nat × SEvent) :=
  session_scope st none true false (fun _ => .ok ()) commitResult

/-- One execution of the `@retryable`-wrapped body of `node_clobber`:
a session scope around the clobber, whose i-th commit outcome is
`commitSeq i`. -/
def node_clobberAttempt (st : DriverState) (sessionArg : Option Nat)
    (node : NodeEnt) (acl : Option (List String))
    (system_annotations properties : Option PropDict)
    (commitResult : Except PyErr Unit) : Except PyErr NodeEnt :=
  (session_scope st sessionArg true false
    (fun _ => .ok (node_clobberEntity node acl system_annotations properties))
    commitResult).1

/-- `node_clobber` as called: the `@retryable` wrapper around the
body, with the caller-supplied `max_retries`. -/
def node_clobber (st : DriverState) (sessionArg : Option Nat)
    (node : NodeEnt) (acl : Option (List String))
    (system_annotations properties : Option PropDict)
    (commitSeq : Nat → Except PyErr Unit) (max_retries : Nat) :
    RetryResult NodeEnt :=
  retryableRun
    (fun i => node_clobberAttempt st sessionArg node acl system_annotations
      properties (commitSeq i))
    max_retries

/-- `node_delete_system_annotation_keys` as called: also
`@retryable`-wrapped (psqlgraph.py lines 301-317); the body opens a
scope, deletes the keys and merges, the i-th commit outcome being
`commitSeq i`. -/
def node_delete_sysan_keysRun (st : DriverState) (sessionArg : Option Nat)
    (node : NodeEnt) (keys : List String)
    (commitSeq : Nat → Except PyErr Unit) (max_retries : Nat) :
    RetryResult NodeEnt :=
  retryableRun
    (fun i =>
      (session_scope st sessionArg true false
        (fun _ =>
          .ok { node with
            sysan := node.sysan.filter (fun kv => !keys.contains kv.1) })
        (commitSeq i)).1)
    max_retries

/-- Keyword parameters of the `node_insert` def (psqlgraph.py line
228): `node` and `session` only. -/
def node_insertParams : List String := ["node", "session"]

/-- Keyword parameters of the `node_clobber` def (lines 279-282). -/
def node_clobberParams : List String :=
  ["node_id", "node", "acl", "system_annotations", "properties",
   "session", "max_retries", "backoff"]

/-- Keyword parameters of the `node_delete_system_annotation_keys` def
(lines 302-307). -/
def node_delete_sysan_keysParams : List String :=
  ["system_annotation_keys", "node_id", "node", "session",
   "max_retries", "backoff"]

/-- The psqlgraph.py methods that carry the `@retryable` decorator. -/
def retryableDecorated : List String :=
  ["node_clobber", "node_delete_property_keys",
   "node_delete_system_annotation_keys", "node_delete", "edge_insert"]

/-- Values a Python property dict may carry, as classified by
`util.sanitize`: the Python 2 scalar classes `int`, `long`, `str`,
`bool`, `float`, `NoneType` and `unicode`, plus `pyObj` for a value of
any other class (list, dict, object, ...), whose own contents
`sanitize` never inspects. -/
inductive PyVal where
  | pyInt (n : Int)
  | pyLong (n : Int)
  | pyStr (s : String)
  | pyBool (b : Bool)
  | pyFloat (q : Rat)
  | pyNone
  | pyUnicode (s : String)
  | pyObj
  deriving DecidableEq, Repr

/-- `isinstance(value, (int, str, long, bool, float, type(None)))`. -/
def PyVal.isBasicScalar : PyVal → Bool
  | .pyInt _ => true
  | .pyLong _ => true
  | .pyStr _ => true
  | .pyBool _ => true
  | .pyFloat _ => true
  | .pyNone => true
  | _ => false

/-- The class name interpolated into the sanitize error message. -/
def PyVal.typeName : PyVal → String
  | .pyInt _ => "int"
  | .pyLong _ => "long"
  | .pyStr _ => "str"
  | .pyBool _ => "bool"
  | .pyFloat _ => "float"
  | .pyNone => "NoneType"
  | .pyUnicode _ => "unicode"
  | .pyObj => "object"

/-- `value.encode(ascii, ignore)`: the code points below 128, the
others dropped. -/
def encodeAsciiIgnore (s : String) : String :=
  String.mk (s.toList.filter (fun c => c.toNat < 128))

/-- `util.sanitize` (util.py lines 49-59) over the dict's items (keys
are the property-dict string keys, on which `str(key)` is the
identity): a basic scalar is copied through, a `unicode` value is
ascii-encoded with errors ignored, and any other value raises the
builtin `ValueError` — not `exc.ValidationError`, which util.py
imports but never raises. -/
def sanitize : List (String × PyVal) → Except PyErr (List (String × PyVal))
  | [] => .ok []
  | (key, value) :: rest =>
    if value.isBasicScalar then
      (sanitize rest).map (fun r => (key, value) :: r)
    else
      match value with
      | .pyUnicode s =>
        (sanitize rest).map (fun r => (key, .pyStr (encodeAsciiIgnore s)) :: r)
      | _ =>
        .error (.valueError
          ("Cannot serialize " ++ value.typeName ++ " to JSONB property"))

/-- The `Edge.label` hybrid-property setter (edge.py lines 163-172).
`cur` is what `self.get_label()` returns — the entity's assigned label
(`get_label` lives in the base module, not under src/, modelled from
the spec as returning the label assigned at construction).  On an
instance `self.label` is not a `Column`, so the guard reduces to: a
non-null current label different from the argument raises
`AttributeError`; otherwise the setter body does nothing, leaving the
label as it was, which the embedding returns. -/
def label_setter (cur : Option String) (newLabel : String) :
    Except PyErr (Option String) :=
  match cur with
  | some l =>
    if l ≠ newLabel then
      .error (.attributeError
        ("Cannot change label from " ++ l ++ " to " ++ newLabel))
    else .ok (some l)
  | none => .ok none

theorem retryLoop_ok {op : Nat → Except PyErr α} {r : Nat} {a : α}
    (hop : op r = .ok a) (gas : Nat) : retryLoop op gas r = ⟨.ok a, 1, 0⟩ := by
  cases gas <;> (conv_lhs => rw [retryLoop]) <;> rw [hop]

theorem retryLoop_not_integrity {op : Nat → Except PyErr α} {r : Nat} {e : PyErr}
    (hop : op r = .error e) (hni : e.isIntegrityError = false) (gas : Nat) :
    retryLoop op gas r = ⟨.error e, 1, 0⟩ := by
  cases gas <;> (conv_lhs => rw [retryLoop]) <;> rw [hop] <;> simp [hni]

theorem retryLoop_integrity_zero {op : Nat → Except PyErr α} {r : Nat} {e : PyErr}
    (hop : op r = .error e) (hi : e.isIntegrityError = true) :
    retryLoop op 0 r = ⟨.error e, 1, 0⟩ := by
  conv_lhs => rw [retryLoop]
  rw [hop]; simp [hi]

theorem retryLoop_integrity_succ {op : Nat → Except PyErr α} {r : Nat} {e : PyErr}
    (hop : op r = .error e) (hi : e.isIntegrityError = true) (g : Nat) :
    retryLoop op (g + 1) r =
      ⟨(retryLoop op g (r + 1)).result, (retryLoop op g (r + 1)).execs + 1,
        (retryLoop op g (r + 1)).backoffs + 1⟩ := by
  conv_lhs => rw [retryLoop]
  rw [hop]; simp [hi]

theorem retryLoop_all_integrity (op : Nat → Except PyErr α) (m : String)
    (hop : ∀ i, op i = .error (.integrityError m)) :
    ∀ gas r, retryLoop op gas r =
      ⟨.error (.integrityError m), gas + 1, gas⟩ := by
  intro gas
  induction gas with
  | zero => intro r; exact retryLoop_integrity_zero (hop r) rfl
  | succ g ih =>
    intro r
    rw [retryLoop_integrity_succ (hop r) rfl, ih (r + 1)]

theorem retryLoop_execs_le (op : Nat → Except PyErr α) :
    ∀ gas r, (retryLoop op gas r).execs ≤ gas + 1 := by
  intro gas
  induction gas with
  | zero =>
    intro r
    cases hop : op r with
    | ok a => rw [retryLoop_ok hop]
    | error e =>
      cases hi : e.isIntegrityError
      · rw [retryLoop_not_integrity hop hi]
      · rw [retryLoop_integrity_zero hop hi]
  | succ g ih =>
    intro r
    cases hop : op r with
    | ok a => rw [retryLoop_ok hop]; exact Nat.succ_le_succ (Nat.zero_le _)
    | error e =>
      cases hi : e.isIntegrityError
      · rw [retryLoop_not_integrity hop hi]
        exact Nat.succ_le_succ (Nat.zero_le _)
      · rw [retryLoop_integrity_succ hop hi]
        have := ih (r + 1); simp; omega

theorem retryLoop_backoffs (op : Nat → Except PyErr α) :
    ∀ gas r, (retryLoop op gas r).backoffs + 1 = (retryLoop op gas r).execs := by
  intro gas
  induction gas with
  | zero =>
    intro r
    cases hop : op r with
    | ok a => rw [retryLoop_ok hop]
    | error e =>
      cases hi : e.isIntegrityError
      · rw [retryLoop_not_integrity hop hi]
      · rw [retryLoop_integrity_zero hop hi]
  | succ g ih =>
    intro r
    cases hop : op r with
    | ok a => rw [retryLoop_ok hop]
    | error e =>
      cases hi : e.isIntegrityError
      · rw [retryLoop_not_integrity hop hi]
      · rw [retryLoop_integrity_succ hop hi]
        have := ih (r + 1); simp; omega

theorem pdGet_updateMap (upd : PropDict) :
    ∀ (old : PropDict) (k : String),
      pdGet (old.map (fun kv =>
        match pdGet upd kv.1 with
        | some v => (kv.1, v)
        | none => kv)) k
      = (pdGet old k).map (fun w => (pdGet upd k).getD w) := by
  intro old
  induction old with
  | nil => intro k; rfl
  | cons hd tl ih =>
    intro k
    obtain ⟨k0, v0⟩ := hd
    by_cases h : k0 = k
    · subst h
      cases hupd : pdGet upd k0 <;> simp [pdGet, hupd]
    · cases hupd : pdGet upd k0 <;> simp [pdGet, h, hupd, ih k]

theorem pdGet_append_some {l1 : PropDict} {k : String} {v : PVal}
    (h : pdGet l1 k = some v) (l2 : PropDict) :
    pdGet (l1 ++ l2) k = some v := by
  induction l1 with
  | nil => simp [pdGet] at h
  | cons hd tl ih =>
    obtain ⟨k0, v0⟩ := hd
    by_cases hk : k0 = k
    · subst hk
      simp [pdGet] at h ⊢
      exact h
    · simp [pdGet, hk] at h ⊢
      exact ih h

theorem pdGet_append_none {l1 : PropDict} {k : String}
    (h : pdGet l1 k = none) (l2 : PropDict) :
    pdGet (l1 ++ l2) k = pdGet l2 k := by
  induction l1 with
  | nil => rfl
  | cons hd tl ih =>
    obtain ⟨k0, v0⟩ := hd
    by_cases hk : k0 = k
    · subst hk; simp [pdGet] at h
    · simp [pdGet, hk] at h ⊢
      exact ih h

theorem pdGet_filter_of_old_none {old : PropDict} {k : String}
    (h : pdGet old k = none) (upd : PropDict) :
    pdGet (upd.filter (fun kv => (pdGet old kv.1).isNone)) k = pdGet upd k := by
  induction upd with
  | nil => rfl
  | cons hd tl ih =>
    obtain ⟨k0, v0⟩ := hd
    by_cases hk : k0 = k
    · subst hk
      simp [List.filter_cons, h, pdGet]
    · cases hp : (pdGet old k0).isNone <;>
        simp [List.filter_cons, hp, pdGet, hk, ih]

theorem pdGet_filter_none {upd : PropDict} {k : String}
    (h : pdGet upd k = none) (p : String × PVal → Bool) :
    pdGet (upd.filter p) k = none := by
  induction upd with
  | nil => rfl
  | cons hd tl ih =>
    obtain ⟨k0, v0⟩ := hd
    by_cases hk : k0 = k
    · subst hk; simp [pdGet] at h
    · simp [pdGet, hk] at h
      cases hp : p (k0, v0) <;> simp [List.filter_cons, hp, pdGet, hk, ih h]

theorem pdGet_dictUpdate_some {upd : PropDict} {k : String} {v : PVal}
    (h : pdGet upd k = some v) (old : PropDict) :
    pdGet (dictUpdate old upd) k = some v := by
  unfold dictUpdate
  cases hold : pdGet old k with
  | some w =>
    apply pdGet_append_some
    rw [pdGet_updateMap upd old k, hold]
    simp [h]
  | none =>
    rw [pdGet_append_none]
    · rw [pdGet_filter_of_old_none hold upd]
      exact h
    · rw [pdGet_updateMap upd old k, hold]
      rfl

theorem pdGet_dictUpdate_none {upd : PropDict} {k : String}
    (h : pdGet upd k = none) (old : PropDict) :
    pdGet (dictUpdate old upd) k = pdGet old k := by
  unfold dictUpdate
  cases hold : pdGet old k with
  | some w =>
    refine pdGet_append_some ?_ _
    rw [pdGet_updateMap upd old k, hold, h]
    rfl
  | none =>
    have h1 : pdGet (old.map (fun kv =>
        match pdGet upd kv.1 with
        | some v => (kv.1, v)
        | none => kv)) k = none := by
      rw [pdGet_updateMap upd old k, hold]; rfl
    rw [pdGet_append_none h1]
    exact pdGet_filter_none h _

/-- Claim C1: an operation wrapped by `retryable` is re-executed on
IntegrityError, with backoff invoked before each re-execution, for at
most `max_retries` retries (at most `max_retries + 1` executions),
after which the same IntegrityError is re-raised; any other exception
propagates immediately without retry; with the default
`max_retries = 0` the operation executes exactly once. -/
theorem retryable_bounded_retry_on_integrity (α : Type)
    (op : Nat → Except PyErr α) (maxRetries : Nat) (m : String) (e : PyErr) :
    ((∀ i, op i = .error (.integrityError m)) →
      retryableRun op maxRetries =
        ⟨.error (.integrityError m), maxRetries + 1, maxRetries⟩) ∧
    (op 0 = .error e → e.isIntegrityError = false →
      retryableRun op maxRetries = ⟨.error e, 1, 0⟩) ∧
    (retryableRun op maxRetries).execs ≤ maxRetries + 1 ∧
    (retryableRun op maxRetries).backoffs + 1 =
      (retryableRun op maxRetries).execs ∧
    (retryableRun op DEFAULT_RETRIES).execs = 1 := by
  refine ⟨?_, ?_, ?_, ?_, ?_⟩
  · intro hop
    exact retryLoop_all_integrity op m hop maxRetries 0
  · intro hop hni
    exact retryLoop_not_integrity hop hni maxRetries
  · exact retryLoop_execs_le op maxRetries 0
  · exact retryLoop_backoffs op maxRetries 0
  · cases hop : op 0 with
    | ok a => rw [retryableRun, DEFAULT_RETRIES, retryLoop_ok hop]
    | error e2 =>
      cases hi : e2.isIntegrityError
      · rw [retryableRun, DEFAULT_RETRIES, retryLoop_not_integrity hop hi]
      · rw [retryableRun, DEFAULT_RETRIES, retryLoop_integrity_zero hop hi]

theorem retryable_bounded_retry_on_integrity_witness :
    retryableRun (fun _ => (.error (.integrityError "dup") : Except PyErr Unit)) 2 =
      ⟨.error (.integrityError "dup"), 3, 2⟩ ∧
    retryableRun (fun _ => (.error (.valueError "bad") : Except PyErr Unit)) 2 =
      ⟨.error (.valueError "bad"), 1, 0⟩ :=
  ⟨(retryable_bounded_retry_on_integrity Unit
      (fun _ => .error (.integrityError "dup")) 2 "dup" (.valueError "bad")).1
      (fun _ => rfl),
   (retryable_bounded_retry_on_integrity Unit
      (fun _ => .error (.valueError "bad")) 2 "dup" (.valueError "bad")).2.1
      rfl rfl⟩

/-- Claim C3 (code evaluation): `path_out`/`path_in` with `reset=False`
returns Python `None` rather than a query builder, because the loop
runs to completion with no return statement; with `reset=True` it
returns during the first loop iteration, applying only the first
label's hop before resetting — not one hop per label. -/
theorem path_out_path_in_eval :
    path_out [] ["a", "b"] false = none ∧
    path_in [] ["a", "b"] false = none ∧
    path_out [] ["a", "b"] true =
      some [.outerjoinOut, .filterLabel "a", .resetJoinpoint] ∧
    path_in [] ["a", "b"] true =
      some [.outerjoinIn, .filterLabel "a", .resetJoinpoint] :=
  ⟨rfl, rfl, rfl, rfl⟩

/-- Claim C5: a label setter call on an entity whose label is a
non-null value different from the argument raises an
AttributeError-class error; returning normally, the setter leaves the
label unchanged; calling it with the same value is a no-op raising
nothing. -/
theorem label_write_once (l newLabel : String) :
    (l ≠ newLabel →
      label_setter (some l) newLabel =
        .error (.attributeError
          ("Cannot change label from " ++ l ++ " to " ++ newLabel))) ∧
    label_setter (some l) l = .ok (some l) ∧
    (∀ r, label_setter (some l) newLabel = .ok r → r = some l) := by
  refine ⟨?_, ?_, ?_⟩
  · intro hne
    simp [label_setter, hne]
  · simp [label_setter]
  · intro r h
    by_cases hne : l = newLabel
    · subst hne
      simp [label_setter] at h
      exact h.symm
    · simp [label_setter, hne] at h

theorem label_write_once_witness :
    label_setter (some "uses") "contains" =
      .error (.attributeError "Cannot change label from uses to contains") ∧
    label_setter (some "uses") "uses" = .ok (some "uses") :=
  ⟨by
    have := (label_write_once "uses" "contains").1 (by decide)
    simpa using this,
   (label_write_once "uses" "uses").2.1⟩

/-- Claim C7 (code evaluation): on a dict holding a non-scalar value
`sanitize` raises the builtin `ValueError`, which is not an
`exc.ValidationError`; on a dict of allowed scalars it returns the
canonicalized dict, unicode values ascii-encoded with errors
ignored. -/
theorem sanitize_eval :
    sanitize [("k", .pyObj)] =
      .error (.valueError "Cannot serialize object to JSONB property") ∧
    (PyErr.valueError "Cannot serialize object to JSONB property"
      ).isValidationError = false ∧
    sanitize [("a", .pyInt 1), ("b", .pyUnicode "héllo"), ("c", .pyNone)] =
      .ok [("a", .pyInt 1), ("b", .pyStr "hllo"), ("c", .pyNone)] :=
  ⟨rfl, rfl, rfl⟩

/-- Claim C8 (code evaluation): `node_lookup` never uses its `label`
argument — with `label="foo"` it builds a query with no filters at
all, which returns a stored node whose label is `"bar"`. -/
theorem node_lookup_ignores_label :
    node_lookup ⟨[1], 2⟩ none none (some "foo") none false =
      .ok (NQuery.mk 1 false [] none) ∧
    evalNQuery (NQuery.mk 1 false [] none)
        ⟨[NodeRec.mk "n1" (some "bar") [] []], [], [], []⟩ =
      [NodeRec.mk "n1" (some "bar") [] []] ∧
    (NodeRec.mk "n1" (some "bar") [] []).label ≠ some "foo" := by
  refine ⟨rfl, rfl, by decide⟩

/-- Claim C9 (code evaluation): `edge_lookup` with a non-None `src_id`
evaluates `query.src_ids(src_id)`, but neither the GraphQuery class of
query.py nor its SQLAlchemy base defines `src_ids`, so the call raises
`AttributeError` instead of returning a filtered query. -/
theorem edge_lookup_src_ids_attribute_error :
    edge_lookup ⟨[1], 2⟩ (some "x") none none false =
      .error (.attributeError "GraphQuery object has no attribute src_ids") ∧
    (PyErr.attributeError "GraphQuery object has no attribute src_ids"
      ).isAttributeError = true :=
  ⟨rfl, rfl⟩

/-- Claim C2: a session scope that created its own session commits it
on normal exit and then releases it (expunge and close), the release
running even when the commit raises; a scope given an explicit session
or inheriting the ambient one performs no commit and no close on it at
normal exit. -/
theorem session_scope_commit_then_release (α : Type) (st : DriverState)
    (canInherit mustInherit : Bool) (a : α) (body : Nat → Except PyErr α)
    (ce : PyErr) (s : Nat) :
    ((mustInherit = false ∨ has_session st = true) →
     (canInherit && has_session st) = false →
     body st.fresh = .ok a →
       session_scope st none canInherit mustInherit body (.ok ()) =
         (.ok a, [(st.fresh, .commit), (st.fresh, .expungeAll),
                  (st.fresh, .close)])) ∧
    ((mustInherit = false ∨ has_session st = true) →
     (canInherit && has_session st) = false →
     body st.fresh = .ok a →
       session_scope st none canInherit mustInherit body (.error ce) =
         (.error ce, [(st.fresh, .commit), (st.fresh, .rollback),
                      (st.fresh, .expungeAll), (st.fresh, .close)])) ∧
    ((mustInherit = false ∨ has_session st = true) →
     body s = .ok a → ∀ cr,
       session_scope st (some s) canInherit mustInherit body cr =
         (.ok a, [])) ∧
    (has_session st = true →
     body (current_session st) = .ok a → ∀ cr,
       session_scope st none true mustInherit body cr = (.ok a, [])) := by
  refine ⟨?_, ?_, ?_, ?_⟩
  · intro hmi hown hbody
    rcases hmi with h | h
    · simp [session_scope, h, hown, hbody]
    · have hci : canInherit = false := by
        cases canInherit
        · rfl
        · simp [h] at hown
      simp [session_scope, h, hci, hbody]
  · intro hmi hown hbody
    rcases hmi with h | h
    · simp [session_scope, h, hown, hbody]
    · have hci : canInherit = false := by
        cases canInherit
        · rfl
        · simp [h] at hown
      simp [session_scope, h, hci, hbody]
  · intro hmi hbody cr
    rcases hmi with h | h <;> simp [session_scope, h, hbody]
  · intro hs hbody cr
    simp [session_scope, hs, hbody]

theorem session_scope_commit_then_release_witness :
    session_scope ⟨[], 0⟩ none true false
        (fun _ => (.ok 7 : Except PyErr Nat)) (.ok ()) =
      (.ok 7, [(0, .commit), (0, .expungeAll), (0, .close)]) ∧
    session_scope ⟨[], 0⟩ none true false
        (fun _ => (.ok 7 : Except PyErr Nat)) (.error (.integrityError "dup")) =
      (.error (.integrityError "dup"),
       [(0, .commit), (0, .rollback), (0, .expungeAll), (0, .close)]) ∧
    session_scope ⟨[5], 9⟩ (some 5) true false
        (fun _ => (.ok 7 : Except PyErr Nat)) (.ok ()) = (.ok 7, []) ∧
    session_scope ⟨[5], 9⟩ none true false
        (fun _ => (.ok 7 : Except PyErr Nat)) (.ok ()) = (.ok 7, []) :=
  ⟨(session_scope_commit_then_release Nat ⟨[], 0⟩ true false 7
      (fun _ => .ok 7) (.integrityError "dup") 5).1 (Or.inl rfl) rfl rfl,
   (session_scope_commit_then_release Nat ⟨[], 0⟩ true false 7
      (fun _ => .ok 7) (.integrityError "dup") 5).2.1 (Or.inl rfl) rfl rfl,
   (session_scope_commit_then_release Nat ⟨[5], 9⟩ true false 7
      (fun _ => .ok 7) (.integrityError "dup") 5).2.2.1 (Or.inl rfl) rfl
      (.ok ()),
   (session_scope_commit_then_release Nat ⟨[5], 9⟩ true false 7
      (fun _ => .ok 7) (.integrityError "dup") 5).2.2.2 rfl rfl (.ok ())⟩

/-- Claim C4 fails on the code: `node_insert` carries no `@retryable`
decorator and accepts no `max_retries` or `backoff` keyword; an
IntegrityError raised when its own scope commits propagates to the
caller after a single execution, while the retry executor with
`max_retries = 1` around the same conflict-once-then-succeed operation
would succeed. -/
theorem node_insert_not_retryable_cex :
    node_insertParams.contains "max_retries" = false ∧
    node_insertParams.contains "backoff" = false ∧
    retryableDecorated.contains "node_insert" = false ∧
    node_insert ⟨[], 0⟩ (.error (.integrityError "dup")) =
      (.error (.integrityError "dup"),
       [(0, .commit), (0, .rollback), (0, .expungeAll), (0, .close)]) ∧
    (retryableRun (fun i =>
        (node_insert ⟨[], 0⟩
          (if i = 0 then .error (.integrityError "dup") else .ok ())).1)
      1).result = .ok () :=
  ⟨rfl, rfl, rfl, rfl, rfl⟩

/-- Claim C4 amended: `node_insert` is not wrapped by the retry
executor and accepts no `max_retries`/`backoff` overrides — a commit
conflict propagates after one execution; `node_clobber` and
`node_delete_system_annotation_keys` are wrapped, accept both
overrides, and running with a session of their own they retry a
persistent IntegrityError `max_retries` times before surfacing it. -/
theorem clobber_and_sysan_delete_retryable (st : DriverState) (node : NodeEnt)
    (acl : Option (List String)) (sa pr : Option PropDict)
    (keys : List String) (commitSeq : Nat → Except PyErr Unit) (m : String)
    (maxR : Nat) :
    (node_clobberParams.contains "max_retries" = true ∧
     node_clobberParams.contains "backoff" = true ∧
     node_delete_sysan_keysParams.contains "max_retries" = true ∧
     node_delete_sysan_keysParams.contains "backoff" = true ∧
     retryableDecorated.contains "node_clobber" = true ∧
     retryableDecorated.contains "node_delete_system_annotation_keys" = true ∧
     node_insertParams.contains "max_retries" = false ∧
     retryableDecorated.contains "node_insert" = false) ∧
    (has_session st = false →
     (∀ i, commitSeq i = .error (.integrityError m)) →
       node_clobber st none node acl sa pr commitSeq maxR =
         ⟨.error (.integrityError m), maxR + 1, maxR⟩ ∧
       node_delete_sysan_keysRun st none node keys commitSeq maxR =
         ⟨.error (.integrityError m), maxR + 1, maxR⟩) ∧
    (has_session st = false →
       node_insert st (.error (.integrityError m)) =
         (.error (.integrityError m),
          [(st.fresh, .commit), (st.fresh, .rollback),
           (st.fresh, .expungeAll), (st.fresh, .close)])) := by
  refine ⟨⟨rfl, rfl, rfl, rfl, rfl, rfl, rfl, rfl⟩, ?_, ?_⟩
  · intro hs hcs
    constructor
    · apply retryLoop_all_integrity
      intro i
      simp [node_clobberAttempt, session_scope, hs, hcs i]
    · apply retryLoop_all_integrity
      intro i
      simp [session_scope, hs, hcs i]
  · intro hs
    simp [node_insert, session_scope, hs]

theorem clobber_and_sysan_delete_retryable_witness :
    node_clobber ⟨[], 0⟩ none ⟨"n", none, [], [], []⟩ none none none
        (fun _ => .error (.integrityError "dup")) 2 =
      ⟨.error (.integrityError "dup"), 3, 2⟩ ∧
    node_insert ⟨[], 0⟩ (.error (.integrityError "dup")) =
      (.error (.integrityError "dup"),
       [(0, .commit), (0, .rollback), (0, .expungeAll), (0, .close)]) :=
  ⟨((clobber_and_sysan_delete_retryable ⟨[], 0⟩ ⟨"n", none, [], [], []⟩
      none none none [] (fun _ => .error (.integrityError "dup")) "dup" 2).2.1
      rfl (fun _ => rfl)).1,
   (clobber_and_sysan_delete_retryable ⟨[], 0⟩ ⟨"n", none, [], [], []⟩
      none none none [] (fun _ => .error (.integrityError "dup")) "dup" 2).2.2
      rfl⟩

/-- Claim C6: node_update (also reached through node_merge on an
existing node, whether passed in or looked up) and edge_update merge
the given properties as a superset-merge: every key of the given dict
maps to its new value afterwards, and every other key keeps its prior
value. -/
theorem update_superset_merges_properties (n : NodeEnt) (ed : EdgeEnt)
    (lookedUp : Option NodeEnt) (nid : String) (lbl : Option String)
    (acl : Option (List String)) (sa props : PropDict) (k : String)
    (v : PVal) :
    (pdGet props k = some v →
      pdGet (node_update n sa acl props).props k = some v) ∧
    (pdGet props k = none →
      pdGet (node_update n sa acl props).props k = pdGet n.props k) ∧
    (pdGet props k = some v →
      pdGet (node_merge (some n) lookedUp nid lbl acl sa props).props k =
        some v) ∧
    (pdGet props k = none →
      pdGet (node_merge (some n) lookedUp nid lbl acl sa props).props k =
        pdGet n.props k) ∧
    (pdGet props k = some v →
      pdGet (node_merge none (some n) nid lbl acl sa props).props k =
        some v) ∧
    (pdGet props k = none →
      pdGet (node_merge none (some n) nid lbl acl sa props).props k =
        pdGet n.props k) ∧
    (pdGet props k = some v →
      pdGet (edge_update ed sa props).props k = some v) ∧
    (pdGet props k = none →
      pdGet (edge_update ed sa props).props k = pdGet ed.props k) := by
  refine ⟨?_, ?_, ?_, ?_, ?_, ?_, ?_, ?_⟩ <;> intro h <;>
    simp [node_update, node_merge, edge_update] <;>
    first
      | exact pdGet_dictUpdate_some h _
      | exact pdGet_dictUpdate_none h _

theorem update_superset_merges_properties_witness :
    pdGet (node_update
        ⟨"n1", some "case", ["admin"],
         [("size", .vInt 1), ("color", .vStr "red")], []⟩
        [] none [("size", .vInt 2)]).props "size" = some (.vInt 2) ∧
    pdGet (node_update
        ⟨"n1", some "case", ["admin"],
         [("size", .vInt 1), ("color", .vStr "red")], []⟩
        [] none [("size", .vInt 2)]).props "color" =
      pdGet [("size", .vInt 1), ("color", .vStr "red")] "color" ∧
    pdGet (edge_update ⟨"a", "b", some "uses", [], [("w", .vInt 3)], []⟩
        [] [("w", .vInt 4)]).props "w" = some (.vInt 4) :=
  ⟨(update_superset_merges_properties
      ⟨"n1", some "case", ["admin"],
       [("size", .vInt 1), ("color", .vStr "red")], []⟩
      ⟨"a", "b", some "uses", [], [("w", .vInt 3)], []⟩
      none "n1" none none [] [("size", .vInt 2)] "size" (.vInt 2)).1 rfl,
   (update_superset_merges_properties
      ⟨"n1", some "case", ["admin"],
       [("size", .vInt 1), ("color", .vStr "red")], []⟩
      ⟨"a", "b", some "uses", [], [("w", .vInt 3)], []⟩
      none "n1" none none [] [("size", .vInt 2)] "color" (.vInt 2)).2.1 rfl,
   (update_superset_merges_properties
      ⟨"n1", some "case", ["admin"],
       [("size", .vInt 1), ("color", .vStr "red")], []⟩
      ⟨"a", "b", some "uses", [], [("w", .vInt 3)], []⟩
      none "n1" none none [] [("w", .vInt 4)] "w" (.vInt 4)).2.2.2.2.2.2.1
      rfl⟩

/-- Claim C10: `nodes`, `edges`, `get_nodes` and `get_edges` open a
`must_inherit` scope, so outside any active session they raise
RuntimeError; inside an active scope they return a query bound to that
scope's session (batched by `yield_per` for the bulk readers). -/
theorem query_accessors_require_active_session (st : DriverState)
    (b s : Nat) (rest : List Nat) :
    (st.stack = [] →
      nodes st = .error (.runtimeError
        "Session scope requires it to be wrapped in a pre-existing session") ∧
      edges st = .error (.runtimeError
        "Session scope requires it to be wrapped in a pre-existing session") ∧
      get_nodes st b = .error (.runtimeError
        "Session scope requires it to be wrapped in a pre-existing session") ∧
      get_edges st b = .error (.runtimeError
        "Session scope requires it to be wrapped in a pre-existing session")) ∧
    (st.stack = s :: rest →
      nodes st = .ok (NQuery.mk s false [] none) ∧
      edges st = .ok (EQuery.mk s false [] none) ∧
      get_nodes st b = .ok (NQuery.mk s false [] (some b)) ∧
      get_edges st b = .ok (EQuery.mk s false [] (some b))) := by
  constructor
  · intro h
    refine ⟨?_, ?_, ?_, ?_⟩ <;>
      simp [nodes, edges, get_nodes, get_edges, session_scope, has_session, h,
        Except.map]
  · intro h
    refine ⟨?_, ?_, ?_, ?_⟩ <;>
      simp [nodes, edges, get_nodes, get_edges, session_scope, has_session,
        current_session, h, Except.map]

theorem query_accessors_require_active_session_witness :
    nodes ⟨[], 0⟩ = .error (.runtimeError
      "Session scope requires it to be wrapped in a pre-existing session") ∧
    get_edges ⟨[], 0⟩ 1000 = .error (.runtimeError
      "Session scope requires it to be wrapped in a pre-existing session") ∧
    nodes ⟨[4], 7⟩ = .ok (NQuery.mk 4 false [] none) ∧
    get_edges ⟨[4], 7⟩ 1000 = .ok (EQuery.mk 4 false [] (some 1000)) :=
  ⟨((query_accessors_require_active_session ⟨[], 0⟩ 1000 4 []).1 rfl).1,
   ((query_accessors_require_active_session ⟨[], 0⟩ 1000 4 []).1 rfl).2.2.2,
   ((query_accessors_require_active_session ⟨[4], 7⟩ 1000 4 []).2 rfl).1,
   ((query_accessors_require_active_session ⟨[4], 7⟩ 1000 4 []).2 rfl).2.2.2⟩

end PsqlGraph
